import Mathlib

/-!
Shallow embedding of the time/caching/menu core of the ManageIt cafeteria
application, together with theorems checking the natural-language design
document against the code.

Conventions used throughout:
* minutes-of-day, hours and TTLs are `Nat`/`Int`; wall-clock instants and
  calendar dates are `Int` (dates as proleptic-Gregorian day ordinals, the
  value produced by Python's `date.toordinal()`);
* Python dictionaries are association lists (`List (key × value)`) with
  insertion-order preserving assignment (`assocSet`) and `pop` (`dictPop`);
* fallible collaborators (the MySQL store, the LLM, the markdown renderer)
  are oracle parameters returning `Except Unit _`;
* Python `//` and `%` on the positive divisors 7 and 2 coincide with Lean's
  `Int.ediv`/`Int.emod` (`/` and `%` on `Int`), which is how they are written.
-/

namespace TimeUtils

/-- `see/utils/time_utils.py`, `TimeUtils.get_current_meal`: the branch chain
on `total_time` (minutes since midnight).  When called with an explicit
`hour` the source sets `total_time = hour * 60`; when called with no
argument it sets `total_time = now.hour * 60 + now.minute`.  Either way the
meal is decided by this chain. -/
def get_current_meal (total_time : Nat) : Option String :=
  if total_time < 11 * 60 then some "Breakfast"
  else if 11 * 60 ≤ total_time ∧ total_time < 16 * 60 then some "Lunch"
  else if 16 * 60 ≤ total_time ∧ total_time ≤ 18 * 60 + 30 then some "Snacks"
  else if 18 * 60 + 30 < total_time ∧ total_time ≤ 23 * 60 + 59 then some "Dinner"
  else none

/-- `see/utils/time_utils.py`, `TimeUtils.seconds_until_next_meal`: the
`for b in boundaries` loop over the literal list `[0, 660, 960, 1110, 1440]`
unrolled; the first boundary strictly greater than `total_minutes` wins,
otherwise the 3600-second fallback is returned. -/
def seconds_until_next_meal (total_minutes : Nat) : Nat :=
  if 0 > total_minutes then (0 - total_minutes) * 60
  else if 11 * 60 > total_minutes then (11 * 60 - total_minutes) * 60
  else if 16 * 60 > total_minutes then (16 * 60 - total_minutes) * 60
  else if 18 * 60 + 30 > total_minutes then (18 * 60 + 30 - total_minutes) * 60
  else if 24 * 60 > total_minutes then (24 * 60 - total_minutes) * 60
  else 3600

/-- `datetime(2025, 7, 27).date().toordinal()`: the fixed epoch date of the
week-parity derivation, as a proleptic-Gregorian day ordinal. -/
def start_date : Int := 739459

/-- `see/utils/time_utils.py`, `TimeUtils.is_odd_week`: `days_difference`
is `(date - start_date).days`; the result is
`(days_difference // 7) % 2 == 0`.  Python floor-division and modulo with
the positive divisors 7 and 2 agree with `Int`'s `/` and `%` here. -/
def is_odd_week (dateOrd : Int) : Bool :=
  ((dateOrd - start_date) / 7) % 2 == 0

end TimeUtils

/-- Python dict assignment `d[k] = v` on an insertion-ordered association
list: replace the value in place if the key is present, else append. -/
def assocSet {V : Type} : List (String × V) → String → V → List (String × V)
  | [], k, v => [(k, v)]
  | (k2, v2) :: rest, k, v =>
    if k2 == k then (k, v) :: rest else (k2, v2) :: assocSet rest k v

/-- Python `d.pop(k, None)`: remove the entry for `k` (a no-op when `k` is
absent). -/
def dictPop {V : Type} (c : List (String × V)) (k : String) : List (String × V) :=
  c.filter (fun e => !(e.1 == k))

/-- `app/utils/cache.py`, `TTLCache._store`: a dict mapping a string key to
a `(value, insertion-timestamp)` pair.  Timestamps are integers standing
for `time.time()` readings. -/
abbrev TTLCache (V : Type) := List (String × V × Int)

namespace TTLCache

/-- `TTLCache.get(key, ttl)`: `value, timestamp = store.get(key, (None, 0))`;
if `now - timestamp < ttl` the stored value is returned and the store is
untouched, otherwise the entry is popped and `None` is returned.  For an
absent key the Python default `(None, 0)` makes both arms return `None`
with the store unchanged (popping an absent key is a no-op); the timing
check is kept here exactly as written. -/
def get {V : Type} (c : TTLCache V) (key : String) (ttl now : Int) :
    Option V × TTLCache V :=
  match List.lookup key c with
  | some (v, ts) => if now - ts < ttl then (some v, c) else (none, dictPop c key)
  | none => if now - 0 < ttl then (none, c) else (none, dictPop c key)

/-- `TTLCache.set(key, value)`: unconditional overwrite stamped with the
current time. -/
def set {V : Type} (c : TTLCache V) (key : String) (v : V) (now : Int) :
    TTLCache V :=
  assocSet c key (v, now)

/-- `TTLCache.clear(key=None)`: `if key:` — both `None` and the empty
string are falsy in Python, so both clear the whole store. -/
def clear {V : Type} (c : TTLCache V) (key : Option String) : TTLCache V :=
  match key with
  | some k => if k == "" then [] else dictPop c k
  | none => []

/-- `TTLCache.cleanup_expired(ttl)`: drop every entry whose age is at least
`ttl`. -/
def cleanup_expired {V : Type} (c : TTLCache V) (ttl now : Int) : TTLCache V :=
  c.filter (fun e => decide (now - e.2.2 < ttl))

end TTLCache

namespace CacheManager

/-! `app/utils/cache.py`, `CacheManager.__init__`: the TTL constants, in
seconds.  Every one of them, the menu TTL included, is a fixed literal. -/

def MENU_TTL : Int := 3600
def RATING_TTL : Int := 1800
def PAYMENT_TTL : Int := 3600
def FEEDBACK_TTL : Int := 86400
def WASTE_TTL : Int := 86400
def NOTIFICATION_TTL : Int := 1800
def FEATURE_TOGGLE_TTL : Int := 86400
def POLL_TTL : Int := 3600

end CacheManager

namespace Helpers

/-- `app/utils/helpers.py`, module level:
`CACHE_TTL_SECONDS = seconds_until_next_meal()` — evaluated once at import
time, so it is a function of the minute-of-day at process start only. -/
def CACHE_TTL_SECONDS (startMinutes : Nat) : Int :=
  TimeUtils.seconds_until_next_meal startMinutes

/-- The three DELETE statements issued by the cleanup block at the top of
`helpers.get_current_meal` (and by `scheduler.cleanup_old_menu`). -/
inductive DbOp
  | deleteTemporaryMenu
  | deleteNonVegMenuItems
  | deleteNonVegMenuMain
deriving DecidableEq

/-- Python exceptions that escape to the caller. -/
inductive PyErr
  | unboundLocalError
deriving DecidableEq

/-- `app/utils/helpers.py`, `get_current_meal(hour=None)`.  The function
first runs a database-cleanup block inside its own `try` (three DELETEs; a
failing cleanup is caught and logged — the failed case is recorded here as
issuing no operations).  Then: only the `if hour is None` branch assigns
`total_time`; when `hour` is supplied there is no `else`, so the first
comparison `0 <= total_time` raises `UnboundLocalError`, which nothing
catches.  The minute branch chain is identical to
`TimeUtils.get_current_meal`. -/
def get_current_meal (hour : Option Nat) (nowMinutes : Nat) (cleanupOk : Bool) :
    List DbOp × Except PyErr (Option String) :=
  let ops :=
    if cleanupOk then
      [DbOp.deleteTemporaryMenu, DbOp.deleteNonVegMenuItems, DbOp.deleteNonVegMenuMain]
    else []
  match hour with
  | none => (ops, .ok (TimeUtils.get_current_meal nowMinutes))
  | some _ => (ops, .error .unboundLocalError)

/-- The cached tuple of `helpers.get_menu_cached`:
`(meal, veg_menu_items, non_veg_menu1, non_veg_menu2)`. -/
abbrev MenuData4 :=
  Option String × List String × List (String × Int) × List (String × Int)

/-- `app/utils/helpers.py`, the module-level mutable cache cell:
`_cached_meal`, `_cached_menu_data`, `_cached_timestamp`. -/
structure HelperState where
  cachedMeal : Option String
  cachedMenuData : Option MenuData4
  cachedTimestamp : Option Int

/-- `app/utils/helpers.py`, `get_menu(date=None, meal=None)`: the cache is
refreshed when the meal changed since the last fill, when the cell is
empty, or when `now - _cached_timestamp > CACHE_TTL_SECONDS`.
`fetchMenu` stands for the database accessor `get_menu_cached`
(an external collaborator here); `startMinutes` is the process-start
minute-of-day captured by `CACHE_TTL_SECONDS`.  The returned `Bool` records
whether the backing store was consulted. -/
def get_menu (startMinutes : Nat)
    (fetchMenu : Option Int → Option String → MenuData4)
    (dateArg : Option Int) (mealArg : Option String)
    (nowMeal : Option String) (now : Int) (st : HelperState) :
    MenuData4 × HelperState × Bool :=
  let current_meal := match mealArg with | some m => some m | none => nowMeal
  let stale : Bool :=
    !(st.cachedMeal == current_meal) || st.cachedMenuData.isNone ||
      st.cachedTimestamp.isNone ||
      decide (now - st.cachedTimestamp.getD 0 > CACHE_TTL_SECONDS startMinutes)
  if stale then
    let menu_data := fetchMenu dateArg current_meal
    (menu_data, ⟨current_meal, some menu_data, some now⟩, true)
  else
    (st.cachedMenuData.getD (none, [], [], []), st, false)

end Helpers

namespace MenuService

/-- `app/services/menu_service.py`, `MEAL_ORDER`. -/
def MEAL_ORDER : List String := ["Breakfast", "Lunch", "Snacks", "Dinner"]

/-- `date.strftime('%A')` on a day ordinal; ordinal 1 (0001-01-01) is a
Monday. -/
def weekdayName (d : Int) : String :=
  (["Monday", "Tuesday", "Wednesday", "Thursday", "Friday", "Saturday",
    "Sunday"].getD ((d - 1) % 7).toNat "")

/-- Python `str(x)` on an optional meal: `None` prints as `"None"` inside
the f-string cache key. -/
def pyStr : Option String → String
  | some s => s
  | none => "None"

/-- The backing-store accessor consumed by `MenuService`: each field is one
of the SQL queries, returning its rows or a data-access failure.
`tempMenu`/`permMenu` take `(week_type, day, meal)`; `topRated` takes
`(day, week_type, meal)` and yields the top row's `food_item` if any;
`nonVeg` takes `(menu_date, meal, mess)` and yields `(food_item, MIN(cost))`
rows. -/
structure Db where
  tempMenu : String → String → String → Except Unit (List String)
  permMenu : String → String → String → Except Unit (List String)
  topRated : String → String → String → Except Unit (Option String)
  nonVeg : Int → String → String → Except Unit (List (String × Int))

/-- `MenuService._get_meals_to_fetch(current_meal, date)`: Dinner resolves
`{Dinner today, Breakfast tomorrow}`, anything else resolves the suffix of
`MEAL_ORDER` from the current meal on.  `MEAL_ORDER.index` raises
`ValueError` for a meal not in the list, modelled as `none` (the caller
runs inside a `try`). -/
def _get_meals_to_fetch (current_meal : String) (date : Int) :
    Option (List (String × Int)) :=
  if MEAL_ORDER.contains current_meal then
    let idx := MEAL_ORDER.indexOf current_meal
    if current_meal == "Dinner" then
      some [(current_meal, date), ("Breakfast", date + 1)]
    else
      some ((MEAL_ORDER.drop idx).map (fun m => (m, date)))
  else none

/-- The `for m, d in meals_to_fetch` loop body of `_fetch_menu_from_db`:
for the currently active meal the temporary (override) menu is consulted
first and the permanent menu is the fallback when it is empty; other meals
always read the permanent menu; the top-rated item is computed for the
active meal only (`fetchone` row truthiness: a row replaces the
accumulator, no row keeps it).  Any query error aborts the whole loop, as
one exception does in the source. -/
def fetch_pairs (db : Db) (week_type meal : String) :
    List (String × Int) → List (String × List String) × Option String →
    Except Unit (List (String × List String) × Option String)
  | [], acc => .ok acc
  | (m, d) :: rest, (menus, top) => do
    let day := weekdayName d
    let veg ←
      if m == meal then do
        let temp ← db.tempMenu week_type day m
        if temp.isEmpty then db.permMenu week_type day m else pure temp
      else db.permMenu week_type day m
    let top2 ←
      if m == meal then do
        let tr ← db.topRated day week_type m
        pure (match tr with | some t => some t | none => top)
      else pure top
    fetch_pairs db week_type meal rest (assocSet menus m veg, top2)

/-- The result tuple of `_fetch_menu_from_db`:
`(meal, menus: dict meal → items, top_rated_item)`. -/
abbrev FetchResult :=
  Option String × List (String × List String) × Option String

/-- `MenuService._fetch_menu_from_db(date=None, meal=None)`: defaults the
date to today and the meal to the active one, returns the empty no-meal
tuple `(None, {}, None)` when no meal is active, and wraps the whole
fetch loop in `try/except`, so any backing-store error (or the
`ValueError` from `MEAL_ORDER.index`) degrades the entire call to
`(None, {}, None)`; no exception escapes. -/
def _fetch_menu_from_db (db : Db) (dateArg : Option Int)
    (mealArg : Option String) (today : Int) (nowMeal : Option String) :
    FetchResult :=
  let date := dateArg.getD today
  let mealOpt := match mealArg with | some m => some m | none => nowMeal
  match mealOpt with
  | none => (none, [], none)
  | some meal =>
    let week_type := if TimeUtils.is_odd_week date then "Odd" else "Even"
    match _get_meals_to_fetch meal date with
    | none => (none, [], none)
    | some pairs =>
      match fetch_pairs db week_type meal pairs ([], none) with
      | .ok (menus, top) => (some meal, menus, top)
      | .error _ => (none, [], none)

/-- `MenuService.get_menu(date=None, meal=None)`: reads the menu cache
under `f"menu_{current_meal}_{date or 'today'}"` with the fixed
`MENU_TTL`; a cached tuple is always truthy, so any hit is returned as is;
on a miss `_fetch_menu_from_db` runs (it cannot raise — its own `except`
returns the empty tuple) and its result, failure-derived or not, is
written back to the cache.  The returned `Bool` records whether the
backing store was consulted. -/
def get_menu (db : Db) (cache : TTLCache FetchResult) (now today : Int)
    (nowMeal : Option String) (dateArg : Option Int)
    (mealArg : Option String) :
    FetchResult × TTLCache FetchResult × Bool :=
  let current_meal := match mealArg with | some m => some m | none => nowMeal
  let cache_key := "menu_" ++ pyStr current_meal ++ "_" ++
    (match dateArg with | some d => toString d | none => "today")
  match TTLCache.get cache cache_key CacheManager.MENU_TTL now with
  | (some v, c2) => (v, c2, false)
  | (none, c2) =>
    let menu_data := _fetch_menu_from_db db dateArg current_meal today nowMeal
    (menu_data, TTLCache.set c2 cache_key menu_data now, true)

/-- `MenuService.get_non_veg_menu(mess_name, date=None, meal=None)`: reads
the non-veg cache under `f"non_veg_{mess_name}_{date}_{meal}"` with
`MENU_TTL` (hit test is `is not None`); on a miss the rows are fetched and
cached; on a backing-store error the empty list is cached under the same
key and returned.  The returned `Bool` records whether the backing store
was consulted. -/
def get_non_veg_menu (db : Db) (cache : TTLCache (List (String × Int)))
    (mess_name : String) (now today : Int) (nowMeal : Option String)
    (dateArg : Option Int) (mealArg : Option String) :
    List (String × Int) × TTLCache (List (String × Int)) × Bool :=
  let date := dateArg.getD today
  let mealOpt := match mealArg with | some m => some m | none => nowMeal
  match mealOpt with
  | none => ([], cache, false)
  | some meal =>
    let cache_key := "non_veg_" ++ mess_name ++ "_" ++ toString date ++ "_" ++ meal
    match TTLCache.get cache cache_key CacheManager.MENU_TTL now with
    | (some v, c2) => (v, c2, false)
    | (none, c2) =>
      match db.nonVeg date meal mess_name with
      | .ok data => (data, TTLCache.set c2 cache_key data now, true)
      | .error _ => ([], TTLCache.set c2 cache_key [] now, true)

/-- Every query of the accessor fails — a backing store that is down. -/
def DbAllFail (db : Db) : Prop :=
  (∀ w d m, db.tempMenu w d m = .error ()) ∧
  (∀ w d m, db.permMenu w d m = .error ()) ∧
  (∀ d w m, db.topRated d w m = .error ()) ∧
  (∀ d m s, db.nonVeg d m s = .error ())

end MenuService

namespace Scheduler

/-- A row of the high-waste query in `generate_high_low_alerts`:
`(floor, SUM(total_waste), waste_date)` — the 7-day window, the floor set
of the mess and the `> 50` threshold are applied by the SQL, i.e. inside
the store oracle. -/
structure WasteRow where
  floor : String
  waste : ℚ
  date : Int

/-- A row of the low-feedback query: `(AVG(d.rating), meal, feedback_date)`
— the 7-day window and the `< 3.0` threshold are applied by the SQL. -/
structure FeedbackRow where
  rating : ℚ
  meal : String
  date : Int

/-- An entry of `high_low_alerts_cache`: a `(message, date)` pair. -/
abbrev Alert := String × Int

/-- Python `round(x, 2)` modelled on exact rationals. -/
def round2 (q : ℚ) : ℚ := (round (q * 100) : ℤ) / 100

/-- The high-waste alert appended for one waste row. -/
def mkHighWasteAlert (r : WasteRow) : Alert :=
  ("⚠️ High waste recorded on " ++ r.floor ++ " Floor with " ++
    toString r.waste ++ " Kg.", r.date)

/-- The low-feedback alert appended for one feedback row. -/
def mkLowFeedbackAlert (r : FeedbackRow) : Alert :=
  ("❗ Low feedback detected for " ++ r.meal ++ " on " ++ toString r.date ++
    " with Avg. Rating " ++ toString (round2 r.rating), r.date)

/-- `mess_list = ["mess1", "mess2"]` in `generate_high_low_alerts`. -/
def mess_list : List String := ["mess1", "mess2"]

/-- The fresh `alerts` list built for one mess in one run: the waste
alerts in query order followed by the feedback alerts in query order. -/
def alertsOf (rows : List WasteRow × List FeedbackRow) : List Alert :=
  rows.1.map mkHighWasteAlert ++ rows.2.map mkLowFeedbackAlert

/-- `app/scheduler.py`, `generate_high_low_alerts`: for each mess a fresh
`alerts = []` list is built from the two queries and then assigned over
the mess's slot of `high_low_alerts_cache` (`cache[mess_name] = alerts`).
The store oracle returns both queries' rows for a mess, or a failure; on a
failure the slot is left as it was (the `except` logs and moves on). -/
def generate_high_low_alerts
    (db : String → Except Unit (List WasteRow × List FeedbackRow))
    (cache : List (String × List Alert)) : List (String × List Alert) :=
  mess_list.foldl
    (fun c mess_name =>
      match db mess_name with
      | .ok rows => assocSet c mess_name (alertsOf rows)
      | .error _ => c)
    cache

end Scheduler

namespace LLMService

/-- `see/services/llm_service.py`, `LLMService.MESS_NAME_MAP`. -/
def MESS_NAME_MAP : List (String × String) :=
  [("mess1", "Food Sutra"), ("mess2", "Shakti")]

/-- `MESS_NAME_MAP.get(mess_key, mess_key)`. -/
def messDisplayName (mess_key : String) : String :=
  (MESS_NAME_MAP.lookup mess_key).getD mess_key

/-- Python `not s.strip()`: true iff the string has no non-whitespace
character (ASCII whitespace here). -/
def pyIsBlank (s : String) : Bool :=
  s.toList.all (fun c => c.isWhitespace)

/-- The prompt f-string of `summarize_feedback_text` (the instruction
block with the feedback text spliced in). -/
def promptFor (feedback_text : String) : String :=
  "\n        You are generating a short, urgent **admin notification** " ++
  "based on student critical feedback.\n        Rules:\n" ++
  "        - Be brief and to the point (max 3-4 sentences).\n" ++
  "        - Use a direct, alerting tone (no over-explanation).\n" ++
  "        - Include only the key problem(s) without unnecessary details.\n" ++
  "        - Keep it under 400 characters.\n" ++
  "        - Focus on actionable issues that require immediate attention.\n" ++
  "\n        Critical Feedback:\n        " ++ feedback_text ++ "\n        "

/-- `LLMService.summarize_feedback_text(feedback_text)`: blank input gives
`""`; missing LLM configuration gives the truncated original text; an LLM
answer longer than 400 characters is truncated to 397 plus `"..."`; any
exception from the LLM call is caught and gives the truncated original
text.  `cfgOk` stands for `GROQ_API_KEY` and `GROQ_PLATFORM` both being
configured; `llm` is the `call_llm` collaborator. -/
def summarize_feedback_text (cfgOk : Bool) (llm : String → Except Unit String)
    (feedback_text : String) : String :=
  if pyIsBlank feedback_text then ""
  else if !cfgOk then feedback_text.take 400
  else
    match llm (promptFor feedback_text) with
    | .ok summary =>
      if summary.length > 400 then summary.take 397 ++ "..." else summary
    | .error _ => feedback_text.take 400

/-- The markdown-to-HTML step: `markdown.markdown(summary, ...)` with the
`except` fallback `summary.replace('\n', '<br>')`. -/
def mdRender (md : String → Except Unit String) (s : String) : String :=
  match md s with
  | .ok html => html
  | .error _ => s.replace "\n" "<br>"

/-- One iteration of the `for mess_key, feedback_text in ...` loop of
`create_admin_notification_from_critical_feedback`: blank feedback is
skipped; an empty summary falls back to the truncated raw text; the
summary is rendered to HTML and prefixed with the mess heading. -/
def notification_for_mess (cfgOk : Bool) (llm md : String → Except Unit String)
    (mess_key feedback_text : String) : Option String :=
  if pyIsBlank feedback_text then none
  else
    let summary := summarize_feedback_text cfgOk llm feedback_text
    let summary2 := if pyIsBlank summary then feedback_text.take 400 else summary
    let summary_html := mdRender md summary2
    some ("<h3>" ++ messDisplayName mess_key ++ "</h3>\n" ++ summary_html)

/-- `LLMService.create_admin_notification_from_critical_feedback()`:
`fetched` stands for `FeedbackService.get_critical_feedback_texts_for_llm()`
(per-mess concatenated critical feedback), whose failure is caught by the
outer `except` and yields `[]`; otherwise each mess is processed by
`notification_for_mess` and the produced notifications are collected. -/
def create_admin_notification_from_critical_feedback
    (fetched : Except Unit (List (String × String))) (cfgOk : Bool)
    (llm md : String → Except Unit String) : List String :=
  match fetched with
  | .error _ => []
  | .ok texts => texts.filterMap
      (fun kv => notification_for_mess cfgOk llm md kv.1 kv.2)

end LLMService

/-! Concrete collaborator instances used by the closed counterexamples and
witnesses below. -/

/-- A backing store whose every query fails. -/
def dbAllFailing : MenuService.Db :=
  ⟨fun _ _ _ => .error (), fun _ _ _ => .error (), fun _ _ _ => .error (),
   fun _ _ _ => .error ()⟩

/-- A backing store whose every query succeeds with an empty answer. -/
def dbAllEmpty : MenuService.Db :=
  ⟨fun _ _ _ => .ok [], fun _ _ _ => .ok [], fun _ _ _ => .ok none,
   fun _ _ _ => .ok []⟩

/-- A backing store that resolves the Snacks slot (override empty,
permanent menu `["Idli"]`, no rating rows) and fails on every other
meal's query. -/
def dbSnacksOnly : MenuService.Db where
  tempMenu := fun _ _ m => if m == "Snacks" then .ok [] else .error ()
  permMenu := fun _ _ m => if m == "Snacks" then .ok ["Idli"] else .error ()
  topRated := fun _ _ _ => .ok none
  nonVeg := fun _ _ _ => .ok []

/-- A menu-cache state holding one entry, inserted at time 0, under the
key `MenuService.get_menu` computes for an explicit Lunch with no date. -/
def lunchStore : TTLCache MenuService.FetchResult :=
  [("menu_Lunch_today", ((some "Lunch", [("Lunch", ["Rice"])], none), 0))]

/-- Alert-query rows for the two messes: one high-waste row for mess1,
one low-feedback row for mess2, all queries succeeding. -/
def alertsDbOk : String → Except Unit (List Scheduler.WasteRow × List Scheduler.FeedbackRow) :=
  fun mess_name =>
    if mess_name == "mess1" then .ok ([⟨"Ground", 60, 739459⟩], [])
    else .ok ([], [⟨5 / 2, "Lunch", 739459⟩])

/-- An LLM collaborator that always fails. -/
def llmFailing : String → Except Unit String := fun _ => .error ()

/-- A markdown renderer that returns its input unchanged. -/
def mdIdentity : String → Except Unit String := fun s => .ok s

/-! ## Shared lemmas about the dictionary primitives -/

theorem lookup_assocSet_self {V : Type} (c : List (String × V)) (k : String) (v : V) :
    List.lookup k (assocSet c k v) = some v := by
  induction c with
  | nil => simp [assocSet]
  | cons e rest ih =>
    obtain ⟨k2, v2⟩ := e
    by_cases h : k2 = k
    · subst h; simp [assocSet]
    · have hb : (k2 == k) = false := beq_eq_false_iff_ne.mpr h
      have hb2 : (k == k2) = false := beq_eq_false_iff_ne.mpr (Ne.symm h)
      simp [assocSet, hb, hb2, List.lookup, ih]

theorem lookup_assocSet_of_ne {V : Type} (c : List (String × V)) (k k2 : String) (v : V)
    (h : k ≠ k2) : List.lookup k (assocSet c k2 v) = List.lookup k c := by
  have hb : (k == k2) = false := beq_eq_false_iff_ne.mpr h
  induction c with
  | nil => simp [assocSet, List.lookup, hb]
  | cons e rest ih =>
    obtain ⟨k3, v3⟩ := e
    by_cases h2 : k3 = k2
    · subst h2; simp [assocSet, List.lookup, hb]
    · have hb2 : (k3 == k2) = false := beq_eq_false_iff_ne.mpr h2
      simp [assocSet, hb2, List.lookup, ih]

theorem lookup_dictPop_self {V : Type} (c : List (String × V)) (k : String) :
    List.lookup k (dictPop c k) = none := by
  induction c with
  | nil => simp [dictPop]
  | cons e rest ih =>
    obtain ⟨k2, v2⟩ := e
    by_cases h : k2 = k
    · subst h; simpa [dictPop] using ih
    · have hb : (k2 == k) = false := beq_eq_false_iff_ne.mpr h
      have hb2 : (k == k2) = false := beq_eq_false_iff_ne.mpr (Ne.symm h)
      simpa [dictPop, hb, hb2, List.lookup] using ih

theorem dictPop_of_lookup_none {V : Type} (c : List (String × V)) (k : String)
    (h : List.lookup k c = none) : dictPop c k = c := by
  induction c with
  | nil => simp [dictPop]
  | cons e rest ih =>
    obtain ⟨k2, v2⟩ := e
    by_cases h2 : k2 = k
    · subst h2; simp [List.lookup] at h
    · have hb : (k2 == k) = false := beq_eq_false_iff_ne.mpr h2
      have hb2 : (k == k2) = false := beq_eq_false_iff_ne.mpr (Ne.symm h2)
      simp [List.lookup, hb2] at h
      simp [dictPop, hb] at ih ⊢
      exact ih h

theorem ttlcache_get_hit {V : Type} (c : TTLCache V) (k : String) (v : V)
    (ts ttl now : Int) (h : List.lookup k c = some (v, ts))
    (hlt : now - ts < ttl) : TTLCache.get c k ttl now = (some v, c) := by
  simp [TTLCache.get, h, hlt]

theorem ttlcache_get_expired {V : Type} (c : TTLCache V) (k : String) (v : V)
    (ts ttl now : Int) (h : List.lookup k c = some (v, ts))
    (hge : ttl ≤ now - ts) :
    TTLCache.get c k ttl now = (none, dictPop c k) := by
  simp [TTLCache.get, h, show ¬(now - ts < ttl) from not_lt.mpr hge]

theorem ttlcache_get_absent {V : Type} (c : TTLCache V) (k : String)
    (ttl now : Int) (h : List.lookup k c = none) :
    TTLCache.get c k ttl now = (none, c) := by
  unfold TTLCache.get
  rw [h]
  simp [dictPop_of_lookup_none c k h]

theorem int_parity_flip (k : Int) : ((k + 1) % 2 == 0) = !(k % 2 == 0) := by
  have h : k % 2 = 0 ∨ k % 2 = 1 := by omega
  rcases h with h | h
  · have h1 : (k + 1) % 2 = 1 := by omega
    simp [h, h1]
  · have h1 : (k + 1) % 2 = 0 := by omega
    simp [h, h1]

/-! ## Claim theorems -/

/-- C1: for every minute-of-day `m` in `[0, 1440)` the active-meal
derivation returns exactly one of the five outcomes, with the stated
ranges: Breakfast iff `m < 660`, Lunch iff `660 ≤ m < 960`, Snacks iff
`960 ≤ m ≤ 1110`, Dinner iff `1110 < m ≤ 1439`, and never `None` on this
domain; in particular `m = 660` is Lunch and `m = 1110` is Snacks. -/
theorem c1_active_meal_partition : ∀ m : Nat, m < 1440 →
    (TimeUtils.get_current_meal m = some "Breakfast" ↔ m < 660) ∧
    (TimeUtils.get_current_meal m = some "Lunch" ↔ 660 ≤ m ∧ m < 960) ∧
    (TimeUtils.get_current_meal m = some "Snacks" ↔ 960 ≤ m ∧ m ≤ 1110) ∧
    (TimeUtils.get_current_meal m = some "Dinner" ↔ 1110 < m ∧ m ≤ 1439) ∧
    TimeUtils.get_current_meal m ≠ none := by
  intro m hm
  unfold TimeUtils.get_current_meal
  split_ifs with h1 h2 h3 h4 <;> refine ⟨?_, ?_, ?_, ?_, ?_⟩ <;> simp <;> omega

/-- C1 witness: at the boundary minute 660 the theorem yields Lunch. -/
theorem c1_witness : TimeUtils.get_current_meal 660 = some "Lunch" :=
  ((c1_active_meal_partition 660 (by norm_num)).2.1).mpr (by norm_num)

/-- C4 counterexample: the claim asserts
`weekParity(epoch + 7) = weekParity(epoch)`, but the code's parity flips
after 7 days: `is_odd_week` is `true` (Odd) at the epoch and `false`
(Even) at epoch + 7. -/
theorem c4_counterexample :
    TimeUtils.is_odd_week TimeUtils.start_date = true ∧
    TimeUtils.is_odd_week (TimeUtils.start_date + 7) = false ∧
    ¬(TimeUtils.is_odd_week (TimeUtils.start_date + 7) =
        TimeUtils.is_odd_week TimeUtils.start_date) := by decide

/-- C4 amended: the week parity is a deterministic pure function of the
date that flips on every 7-day step from the fixed epoch; the epoch itself
is Odd (`true`), epoch + 7 is the opposite parity, and epoch + 14 is again
the same parity as the epoch. -/
theorem c4_amended_week_parity : ∀ d : Int,
    TimeUtils.is_odd_week (d + 7) = !(TimeUtils.is_odd_week d) ∧
    TimeUtils.is_odd_week TimeUtils.start_date = true ∧
    TimeUtils.is_odd_week (TimeUtils.start_date + 14) =
      TimeUtils.is_odd_week TimeUtils.start_date := by
  intro d
  refine ⟨?_, by decide, by decide⟩
  unfold TimeUtils.is_odd_week
  have h1 : d + 7 - TimeUtils.start_date = (d - TimeUtils.start_date) + 7 := by ring
  have h2 : ((d - TimeUtils.start_date) + 7) / 7 = (d - TimeUtils.start_date) / 7 + 1 := by
    omega
  rw [h1, h2, int_parity_flip]

/-- C5 counterexample: the claim asserts minute 1110 yields Dinner, but
the Snacks branch (`960 ≤ m ≤ 1110`) is tested first, so the code returns
Snacks at 1110. -/
theorem c5_counterexample :
    TimeUtils.get_current_meal 1110 = some "Snacks" ∧
    ¬(TimeUtils.get_current_meal 1110 = some "Dinner") := by decide

/-- C5 amended: minute 659 is Breakfast, 660 is Lunch, 1109 is Snacks,
1110 is still Snacks (its upper bound is inclusive), and the boundary to
Dinner flips at 1111. -/
theorem c5_amended_boundaries :
    TimeUtils.get_current_meal 659 = some "Breakfast" ∧
    TimeUtils.get_current_meal 660 = some "Lunch" ∧
    TimeUtils.get_current_meal 1109 = some "Snacks" ∧
    TimeUtils.get_current_meal 1110 = some "Snacks" ∧
    TimeUtils.get_current_meal 1111 = some "Dinner" := by decide

/-- C6: a `TTLCache.get` performed while the elapsed time since insertion
is strictly below the ttl returns the stored value and leaves the store
untouched; once elapsed ≥ ttl (the boundary `elapsed = ttl` included) it
returns absent and removes the entry, so an entry is valid iff
`now - insertedAt < ttl`. -/
theorem c6_ttlcache_expiry {V : Type} (c : TTLCache V) (k : String) (v : V)
    (ts ttl now : Int) (h : List.lookup k c = some (v, ts)) :
    (now - ts < ttl → TTLCache.get c k ttl now = (some v, c)) ∧
    (ttl ≤ now - ts →
      (TTLCache.get c k ttl now).1 = none ∧
      List.lookup k (TTLCache.get c k ttl now).2 = none) := by
  constructor
  · intro hlt
    exact ttlcache_get_hit c k v ts ttl now h hlt
  · intro hge
    rw [ttlcache_get_expired c k v ts ttl now h hge]
    exact ⟨rfl, lookup_dictPop_self c k⟩

/-- C6 witness: on the store `[("k", (5, 0))]` a read at time 3 with
ttl 10 returns the value, and a read at time 10 (elapsed = ttl exactly)
returns absent. -/
theorem c6_witness :
    TTLCache.get [("k", ((5 : Nat), (0 : Int)))] "k" 10 3 =
      (some 5, [("k", (5, 0))]) ∧
    (TTLCache.get [("k", ((5 : Nat), (0 : Int)))] "k" 10 10).1 = none :=
  ⟨(c6_ttlcache_expiry [("k", (5, 0))] "k" 5 0 10 3 rfl).1 (by norm_num),
   ((c6_ttlcache_expiry [("k", (5, 0))] "k" 5 0 10 10 rfl).2 (by norm_num)).1⟩

/-- C7 counterexample: `app/utils/helpers.py`'s `get_current_meal` is not
pure arithmetic — called with an explicit hour it first issues the three
cleanup DELETEs against the backing store and then raises
`UnboundLocalError`, because `total_time` is only assigned in the
`hour is None` branch. -/
theorem c7_counterexample :
    Helpers.get_current_meal (some 12) 720 true =
      ([Helpers.DbOp.deleteTemporaryMenu, Helpers.DbOp.deleteNonVegMenuItems,
        Helpers.DbOp.deleteNonVegMenuMain],
       .error Helpers.PyErr.unboundLocalError) := rfl

/-- C7 amended: the `TimeUtils` operations of `see/utils/time_utils.py`
are total pure functions (the meal derivation always returns one of the
five outcomes, the boundary distance is always positive), but
`app/utils/helpers.py`'s `get_current_meal` issues the three data-store
DELETEs on every call whose cleanup succeeds and raises
`UnboundLocalError` for every explicitly supplied hour; only its
no-argument path returns the pure meal value. -/
theorem c7_amended_purity (h nowMin : Nat) (cleanupOk : Bool) :
    TimeUtils.get_current_meal (h * 60) ∈
      [some "Breakfast", some "Lunch", some "Snacks", some "Dinner", none] ∧
    0 < TimeUtils.seconds_until_next_meal nowMin ∧
    (Helpers.get_current_meal (some h) nowMin cleanupOk).2 =
      .error Helpers.PyErr.unboundLocalError ∧
    (Helpers.get_current_meal (some h) nowMin true).1 =
      [Helpers.DbOp.deleteTemporaryMenu, Helpers.DbOp.deleteNonVegMenuItems,
       Helpers.DbOp.deleteNonVegMenuMain] ∧
    (Helpers.get_current_meal none nowMin cleanupOk).2 =
      .ok (TimeUtils.get_current_meal nowMin) := by
  refine ⟨?_, ?_, rfl, rfl, rfl⟩
  · unfold TimeUtils.get_current_meal
    split_ifs <;> simp
  · unfold TimeUtils.seconds_until_next_meal
    split_ifs <;> omega

/-- C2 counterexample: the claim says every menu-cache read applies the
meal-boundary TTL computed at process start.  For a process started at
minute 0 that TTL is 39600 s, yet `MenuService.get_menu` reads the menu
cache with the fixed `MENU_TTL = 3600`: on an entry aged 5000 s the
service refetches from the store (`True` in the third component), although
a read with the claimed TTL would still serve the entry. -/
theorem c2_counterexample :
    Helpers.CACHE_TTL_SECONDS 0 = 39600 ∧
    CacheManager.MENU_TTL = 3600 ∧
    CacheManager.MENU_TTL ≠ Helpers.CACHE_TTL_SECONDS 0 ∧
    (MenuService.get_menu dbAllEmpty lunchStore 5000 739459 (some "Lunch")
        none none).2.2 = true ∧
    (TTLCache.get lunchStore "menu_Lunch_today"
        (Helpers.CACHE_TTL_SECONDS 0) 5000).1 =
      some (some "Lunch", [("Lunch", ["Rice"])], none) := by
  refine ⟨rfl, rfl, by decide, ?_, rfl⟩
  rfl

/-- C2 amended: only the legacy module-level cache of
`app/utils/helpers.py` uses `CACHE_TTL_SECONDS`, the boundary distance
captured once at process start, as its TTL — and that cache also refreshes
whenever the active meal differs from the cached one; the menu-cache reads
performed by `MenuService.get_menu` use the fixed 3600-second `MENU_TTL`. -/
theorem c2_amended_menu_ttl (startMinutes : Nat)
    (fetchMenu : Option Int → Option String → Helpers.MenuData4)
    (cm : String) (now : Int) (st : Helpers.HelperState)
    (h : st.cachedMeal ≠ some cm) :
    (Helpers.get_menu startMinutes fetchMenu none (some cm) none now st).2.2 =
      true ∧
    CacheManager.MENU_TTL = 3600 ∧
    Helpers.CACHE_TTL_SECONDS startMinutes =
      ((TimeUtils.seconds_until_next_meal startMinutes : Nat) : Int) := by
  refine ⟨?_, rfl, rfl⟩
  have hb : (st.cachedMeal == some cm) = false := beq_eq_false_iff_ne.mpr h
  simp [Helpers.get_menu, hb]

/-- C2 witness: with an empty legacy cache cell a Lunch request refreshes
from the store. -/
theorem c2_witness :
    (Helpers.get_menu 0 (fun _ _ => (none, [], [], [])) none (some "Lunch")
        none 0 ⟨none, none, none⟩).2.2 = true ∧
    CacheManager.MENU_TTL = 3600 ∧
    Helpers.CACHE_TTL_SECONDS 0 = ((TimeUtils.seconds_until_next_meal 0 : Nat) : Int) :=
  c2_amended_menu_ttl 0 (fun _ _ => (none, [], [], [])) "Lunch" 0
    ⟨none, none, none⟩ (by simp)

/-- C3 counterexample: resolving Snacks on the epoch date against a store
that answers the Snacks queries (permanent menu `["Idli"]`) but fails on
the Dinner lookahead returns the whole empty no-meal tuple — the
already-resolved Snacks slot is discarded, where the claim requires it to
be kept with only the Dinner slot degrading. -/
theorem c3_counterexample :
    MenuService._fetch_menu_from_db dbSnacksOnly (some TimeUtils.start_date)
      (some "Snacks") TimeUtils.start_date none = (none, [], none) ∧
    dbSnacksOnly.tempMenu "Odd" "Sunday" "Snacks" = .ok [] ∧
    dbSnacksOnly.permMenu "Odd" "Sunday" "Snacks" = .ok ["Idli"] := by
  exact ⟨rfl, rfl, rfl⟩

/-- C3 amended: the `try/except` of `_fetch_menu_from_db` wraps the whole
multi-meal loop, so a backing-store error anywhere in the pass makes the
entire resolution return the empty no-meal tuple `(None, {}, None)`,
discarding meals already resolved in that pass; no exception ever reaches
the caller, and only a fully successful pass returns the per-meal map. -/
theorem c3_amended_whole_pass (db : MenuService.Db) (d today : Int)
    (meal : String) (pairs : List (String × Int))
    (hp : MenuService._get_meals_to_fetch meal d = some pairs) :
    (∀ e, MenuService.fetch_pairs db
        (if TimeUtils.is_odd_week d then "Odd" else "Even") meal pairs
        ([], none) = .error e →
      MenuService._fetch_menu_from_db db (some d) (some meal) today none =
        (none, [], none)) ∧
    (∀ menus top, MenuService.fetch_pairs db
        (if TimeUtils.is_odd_week d then "Odd" else "Even") meal pairs
        ([], none) = .ok (menus, top) →
      MenuService._fetch_menu_from_db db (some d) (some meal) today none =
        (some meal, menus, top)) := by
  constructor
  · intro e he
    unfold MenuService._fetch_menu_from_db
    simp [hp, he]
  · intro menus top hok
    unfold MenuService._fetch_menu_from_db
    simp [hp, hok]

/-- C3 witness: the amended theorem applied to the mixed-success store of
the counterexample. -/
theorem c3_witness :
    MenuService._fetch_menu_from_db dbSnacksOnly (some TimeUtils.start_date)
      (some "Snacks") TimeUtils.start_date none = (none, [], none) :=
  (c3_amended_whole_pass dbSnacksOnly TimeUtils.start_date
      TimeUtils.start_date "Snacks"
      [("Snacks", TimeUtils.start_date), ("Dinner", TimeUtils.start_date)]
      rfl).1 () rfl

/-- C8: one `generate_high_low_alerts` run writes, for each mess whose
queries succeed, a freshly computed alert list over that mess's snapshot
slot — replacement, not merge: the resulting slot does not depend on the
previous snapshot, so running the job twice over unchanged data yields an
identical snapshot with no accumulation or duplication. -/
theorem c8_snapshot_replaced
    (db : String → Except Unit (List Scheduler.WasteRow × List Scheduler.FeedbackRow))
    (c c' : List (String × List Scheduler.Alert)) (m : String)
    (hm : m ∈ Scheduler.mess_list)
    (hok : ∀ m2 ∈ Scheduler.mess_list, (db m2).isOk = true) :
    List.lookup m (Scheduler.generate_high_low_alerts db
        (Scheduler.generate_high_low_alerts db c)) =
      List.lookup m (Scheduler.generate_high_low_alerts db c) ∧
    List.lookup m (Scheduler.generate_high_low_alerts db c) =
      List.lookup m (Scheduler.generate_high_low_alerts db c') ∧
    (∀ rows, db m = .ok rows →
      List.lookup m (Scheduler.generate_high_low_alerts db c) =
        some (Scheduler.alertsOf rows)) := by
  have h1 := hok "mess1" (by simp [Scheduler.mess_list])
  have h2 := hok "mess2" (by simp [Scheduler.mess_list])
  obtain ⟨r1, hr1⟩ : ∃ r, db "mess1" = .ok r := by
    cases hd : db "mess1" with
    | ok r => exact ⟨r, rfl⟩
    | error e => rw [hd] at h1; simp [Except.isOk, Except.toBool] at h1
  obtain ⟨r2, hr2⟩ : ∃ r, db "mess2" = .ok r := by
    cases hd : db "mess2" with
    | ok r => exact ⟨r, rfl⟩
    | error e => rw [hd] at h2; simp [Except.isOk, Except.toBool] at h2
  have hgen : ∀ x, Scheduler.generate_high_low_alerts db x =
      assocSet (assocSet x "mess1" (Scheduler.alertsOf r1)) "mess2"
        (Scheduler.alertsOf r2) := by
    intro x
    simp [Scheduler.generate_high_low_alerts, Scheduler.mess_list, hr1, hr2]
  have hmm : m = "mess1" ∨ m = "mess2" := by
    simpa [Scheduler.mess_list] using hm
  rcases hmm with rfl | rfl
  · have hl : ∀ x, List.lookup "mess1"
        (Scheduler.generate_high_low_alerts db x) =
        some (Scheduler.alertsOf r1) := by
      intro x
      rw [hgen x, lookup_assocSet_of_ne _ _ _ _ (by decide),
        lookup_assocSet_self]
    refine ⟨by rw [hl, hl], by rw [hl, hl], ?_⟩
    intro rows hrows
    rw [hr1] at hrows
    injection hrows with h3
    subst h3
    exact hl c
  · have hl : ∀ x, List.lookup "mess2"
        (Scheduler.generate_high_low_alerts db x) =
        some (Scheduler.alertsOf r2) := by
      intro x
      rw [hgen x, lookup_assocSet_self]
    refine ⟨by rw [hl, hl], by rw [hl, hl], ?_⟩
    intro rows hrows
    rw [hr2] at hrows
    injection hrows with h3
    subst h3
    exact hl c

/-- C8 witness: two consecutive runs over the fixed row set agree, the
run is insensitive to the prior snapshot, and the slot holds exactly the
freshly computed alerts. -/
theorem c8_witness :
    List.lookup "mess1" (Scheduler.generate_high_low_alerts alertsDbOk
        (Scheduler.generate_high_low_alerts alertsDbOk [])) =
      List.lookup "mess1" (Scheduler.generate_high_low_alerts alertsDbOk []) ∧
    List.lookup "mess1" (Scheduler.generate_high_low_alerts alertsDbOk []) =
      List.lookup "mess1" (Scheduler.generate_high_low_alerts alertsDbOk
        [("mess1", [])]) ∧
    (∀ rows, alertsDbOk "mess1" = .ok rows →
      List.lookup "mess1" (Scheduler.generate_high_low_alerts alertsDbOk []) =
        some (Scheduler.alertsOf rows)) :=
  c8_snapshot_replaced alertsDbOk [] [("mess1", [])] "mess1" (by decide)
    (by intro m2 hm2; fin_cases hm2 <;> rfl)

/-! Helper lemmas for the notification fallback (C9). -/

theorem notification_shape (cfgOk : Bool) (llm md : String → Except Unit String)
    (mess_key t : String) (hblank : LLMService.pyIsBlank t = false) :
    LLMService.notification_for_mess cfgOk llm md mess_key t =
      some ("<h3>" ++ LLMService.messDisplayName mess_key ++ "</h3>\n" ++
        LLMService.mdRender md
          (if LLMService.pyIsBlank
              (LLMService.summarize_feedback_text cfgOk llm t) then
            t.take 400
          else LLMService.summarize_feedback_text cfgOk llm t)) := by
  unfold LLMService.notification_for_mess
  simp [hblank]

theorem summarize_fail (cfgOk : Bool) (llm : String → Except Unit String)
    (t : String) (hblank : LLMService.pyIsBlank t = false)
    (hfail : ∀ p, llm p = .error ()) :
    LLMService.summarize_feedback_text cfgOk llm t = t.take 400 := by
  unfold LLMService.summarize_feedback_text
  cases cfgOk <;> simp [hblank, hfail]

theorem heading_ne_empty (x s2 : String) :
    ("<h3>" ++ x ++ "</h3>\n" ++ s2) ≠ "" := by
  intro hc
  have h2 := congrArg String.length hc
  rw [String.length_append, String.length_append, String.length_append] at h2
  have h3 : ("<h3>" : String).length = 4 := rfl
  have h4 : ("" : String).length = 0 := rfl
  omega

/-- C9 counterexample: its phrase "non-empty feedback text" read literally
fails on whitespace-only text: `" "` is a non-empty string, yet the loop
skips it (`if not feedback_text.strip(): continue`) and no notification
text at all is produced for that mess, with or without a summarizer. -/
theorem c9_counterexample :
    LLMService.create_admin_notification_from_critical_feedback
        (.ok [("mess1", " ")]) true llmFailing mdIdentity = [] ∧
    (" " : String) ≠ "" := by
  exact ⟨rfl, by decide⟩

/-- C9 amended: for feedback text that is non-blank (has a non-whitespace
character), a notification is always produced and is non-empty, whatever
the summarizer does; and when the summarization collaborator fails on
every prompt, the emitted notification is exactly the mess heading
followed by the rendered raw feedback text truncated to 400 characters —
the alert is not dropped. -/
theorem c9_amended_raw_fallback (cfgOk : Bool)
    (llm md : String → Except Unit String) (mess_key t : String)
    (hblank : LLMService.pyIsBlank t = false) :
    (∃ s, LLMService.notification_for_mess cfgOk llm md mess_key t = some s ∧
      s ≠ "") ∧
    ((∀ p, llm p = .error ()) →
      LLMService.notification_for_mess cfgOk llm md mess_key t =
        some ("<h3>" ++ LLMService.messDisplayName mess_key ++ "</h3>\n" ++
          LLMService.mdRender md (t.take 400))) := by
  constructor
  · refine ⟨"<h3>" ++ LLMService.messDisplayName mess_key ++ "</h3>\n" ++
      LLMService.mdRender md
        (if LLMService.pyIsBlank
            (LLMService.summarize_feedback_text cfgOk llm t) then
          t.take 400
        else LLMService.summarize_feedback_text cfgOk llm t),
      notification_shape cfgOk llm md mess_key t hblank, heading_ne_empty _ _⟩
  · intro hfail
    rw [notification_shape cfgOk llm md mess_key t hblank,
      summarize_fail cfgOk llm t hblank hfail]
    simp

/-- C9 witness: a failing summarizer with non-blank feedback "Bad food"
yields the heading plus the raw text. -/
theorem c9_witness :
    LLMService.notification_for_mess true llmFailing mdIdentity "mess1"
        "Bad food" =
      some ("<h3>" ++ LLMService.messDisplayName "mess1" ++ "</h3>\n" ++
        LLMService.mdRender mdIdentity (String.take "Bad food" 400)) :=
  (c9_amended_raw_fallback true llmFailing mdIdentity "mess1" "Bad food"
      (by decide)).2 (fun _ => rfl)

/-- C10: when every backing-store query fails, `MenuService.get_menu`
caches the empty no-meal tuple under the requested key and
`MenuService.get_non_veg_menu` caches the empty item list under its key;
a second call within the TTL is served the failure-derived empty result
from the cache (third component `false`: the backing store is not
retried). -/
theorem c10_empty_fallback_cached (db : MenuService.Db)
    (hdb : MenuService.DbAllFail db) (t0 t1 today : Int)
    (h01 : t1 - t0 < CacheManager.MENU_TTL) :
    (MenuService.get_menu db [] t0 today (some "Lunch") none none).1 =
      (none, [], none) ∧
    (MenuService.get_menu db [] t0 today (some "Lunch") none none).2.2 = true ∧
    List.lookup "menu_Lunch_today"
      (MenuService.get_menu db [] t0 today (some "Lunch") none none).2.1 =
      some ((none, [], none), t0) ∧
    (MenuService.get_menu db
      (MenuService.get_menu db [] t0 today (some "Lunch") none none).2.1
      t1 today (some "Lunch") none none).1 = (none, [], none) ∧
    (MenuService.get_menu db
      (MenuService.get_menu db [] t0 today (some "Lunch") none none).2.1
      t1 today (some "Lunch") none none).2.2 = false ∧
    (MenuService.get_non_veg_menu db [] "mess1" t0 today (some "Lunch")
      none none).1 = [] ∧
    (MenuService.get_non_veg_menu db [] "mess1" t0 today (some "Lunch")
      none none).2.2 = true ∧
    List.lookup ("non_veg_mess1_" ++ toString today ++ "_Lunch")
      (MenuService.get_non_veg_menu db [] "mess1" t0 today (some "Lunch")
        none none).2.1 = some ([], t0) ∧
    (MenuService.get_non_veg_menu db
      (MenuService.get_non_veg_menu db [] "mess1" t0 today (some "Lunch")
        none none).2.1
      "mess1" t1 today (some "Lunch") none none).1 = [] ∧
    (MenuService.get_non_veg_menu db
      (MenuService.get_non_veg_menu db [] "mess1" t0 today (some "Lunch")
        none none).2.1
      "mess1" t1 today (some "Lunch") none none).2.2 = false := by
  obtain ⟨ht, hp, hr, hn⟩ := hdb
  have hpairs : MenuService._get_meals_to_fetch "Lunch" today =
      some [("Lunch", today), ("Snacks", today), ("Dinner", today)] := rfl
  have hloop : ∀ wt, MenuService.fetch_pairs db wt "Lunch"
      [("Lunch", today), ("Snacks", today), ("Dinner", today)] ([], none) =
      .error () := by
    intro wt
    simp [MenuService.fetch_pairs, ht]
    rfl
  have hfetch : MenuService._fetch_menu_from_db db none (some "Lunch") today
      (some "Lunch") = (none, [], none) := by
    unfold MenuService._fetch_menu_from_db
    simp [hpairs, hloop]
  have habs1 : TTLCache.get ([] : TTLCache MenuService.FetchResult)
      "menu_Lunch_today" CacheManager.MENU_TTL t0 = (none, []) :=
    ttlcache_get_absent _ _ _ _ (by simp)
  have hg1 : MenuService.get_menu db [] t0 today (some "Lunch") none none =
      ((none, [], none), [("menu_Lunch_today", ((none, [], none), t0))],
        true) := by
    unfold MenuService.get_menu
    simp [habs1, hfetch, TTLCache.set, assocSet, MenuService.pyStr]
  have hhit1 : TTLCache.get
      [("menu_Lunch_today", (((none, [], none) : MenuService.FetchResult), t0))]
      "menu_Lunch_today" CacheManager.MENU_TTL t1 =
      (some (none, [], none),
        [("menu_Lunch_today", ((none, [], none), t0))]) :=
    ttlcache_get_hit _ _ _ t0 _ t1 (by simp) h01
  have hg2 : MenuService.get_menu db
      [("menu_Lunch_today", ((none, [], none), t0))] t1 today (some "Lunch")
      none none =
      ((none, [], none), [("menu_Lunch_today", ((none, [], none), t0))],
        false) := by
    unfold MenuService.get_menu
    simp [hhit1, MenuService.pyStr]
  have habs2 : TTLCache.get ([] : TTLCache (List (String × Int)))
      ("non_veg_mess1_" ++ toString today ++ "_Lunch")
      CacheManager.MENU_TTL t0 = (none, []) :=
    ttlcache_get_absent _ _ _ _ (by simp)
  have hnv1 : MenuService.get_non_veg_menu db [] "mess1" t0 today
      (some "Lunch") none none =
      ([], [("non_veg_mess1_" ++ toString today ++ "_Lunch", ([], t0))],
        true) := by
    unfold MenuService.get_non_veg_menu
    simp [String.append_assoc] at habs2 ⊢
    simp [habs2, hn, TTLCache.set, assocSet]
  have hhit2 : TTLCache.get
      [("non_veg_mess1_" ++ toString today ++ "_Lunch",
        (([] : List (String × Int)), t0))]
      ("non_veg_mess1_" ++ toString today ++ "_Lunch")
      CacheManager.MENU_TTL t1 =
      (some [],
        [("non_veg_mess1_" ++ toString today ++ "_Lunch", ([], t0))]) :=
    ttlcache_get_hit _ _ _ t0 _ t1 (by simp) h01
  have hnv2 : MenuService.get_non_veg_menu db
      [("non_veg_mess1_" ++ toString today ++ "_Lunch", ([], t0))] "mess1"
      t1 today (some "Lunch") none none =
      ([], [("non_veg_mess1_" ++ toString today ++ "_Lunch", ([], t0))],
        false) := by
    unfold MenuService.get_non_veg_menu
    simp [String.append_assoc] at hhit2 ⊢
    simp [hhit2]
  rw [hg1, hnv1]
  refine ⟨rfl, rfl, by simp, ?_, ?_, rfl, rfl, by simp, ?_, ?_⟩
  · rw [hg2]
  · rw [hg2]
  · rw [hnv2]
  · rw [hnv2]

/-- C10 witness: the theorem at the always-failing store, insertion time 0
and re-read time 100. -/
theorem c10_witness :
    (MenuService.get_menu dbAllFailing [] 0 739459 (some "Lunch") none none).1 =
      (none, [], none) ∧
    (MenuService.get_menu dbAllFailing [] 0 739459 (some "Lunch") none none).2.2 =
      true ∧
    List.lookup "menu_Lunch_today"
      (MenuService.get_menu dbAllFailing [] 0 739459 (some "Lunch") none
        none).2.1 = some ((none, [], none), 0) ∧
    (MenuService.get_menu dbAllFailing
      (MenuService.get_menu dbAllFailing [] 0 739459 (some "Lunch") none
        none).2.1
      100 739459 (some "Lunch") none none).1 = (none, [], none) ∧
    (MenuService.get_menu dbAllFailing
      (MenuService.get_menu dbAllFailing [] 0 739459 (some "Lunch") none
        none).2.1
      100 739459 (some "Lunch") none none).2.2 = false ∧
    (MenuService.get_non_veg_menu dbAllFailing [] "mess1" 0 739459
      (some "Lunch") none none).1 = [] ∧
    (MenuService.get_non_veg_menu dbAllFailing [] "mess1" 0 739459
      (some "Lunch") none none).2.2 = true ∧
    List.lookup ("non_veg_mess1_" ++ toString (739459 : Int) ++ "_Lunch")
      (MenuService.get_non_veg_menu dbAllFailing [] "mess1" 0 739459
        (some "Lunch") none none).2.1 = some ([], 0) ∧
    (MenuService.get_non_veg_menu dbAllFailing
      (MenuService.get_non_veg_menu dbAllFailing [] "mess1" 0 739459
        (some "Lunch") none none).2.1
      "mess1" 100 739459 (some "Lunch") none none).1 = [] ∧
    (MenuService.get_non_veg_menu dbAllFailing
      (MenuService.get_non_veg_menu dbAllFailing [] "mess1" 0 739459
        (some "Lunch") none none).2.1
      "mess1" 100 739459 (some "Lunch") none none).2.2 = false :=
  c10_empty_fallback_cached dbAllFailing
    ⟨fun _ _ _ => rfl, fun _ _ _ => rfl, fun _ _ _ => rfl, fun _ _ _ => rfl⟩
    0 100 739459 (by decide)
